import Mathlib

/-!
Verification of the storage resiliency and migration subsystem of the
squll-ai browser extension.  The definitions below are a shallow embedding
of the code in `src/storage/index.ts`, `src/storage/db.ts`,
`extension/background.ts` and the migration routine
`migrateFromChromeStorage` (whose full source appears in CODE_REVIEW.md).

Modelling conventions:
- Every Dexie table holds at most the row stored under the fixed primary
  key 1 (all code paths call `get(1)` and `put` with `id: 1`), so a table
  is an `Option` of a stored row carrying its `id` field.
- JavaScript objects with optional fields become structures of `Option`s;
  a field absent from an object is `none`.
- Throwing code becomes `Except String`; `try/catch` becomes a `match`.
- Fault injection: an `Env` record says which external primitives throw
  (Dexie open, Dexie get/put, the message channel, localStorage,
  chrome.storage.sync, the individual writes inside the migration
  transaction), plus the execution context (extension page or not) and
  the current clock value used for `Date.now()`.
- `JSON.stringify` and `JSON.parse` of the flat layout records are
  modelled structurally: a localStorage layout entry holds the record
  itself, standing for its serialized form (serialize and parse are a
  round trip on every value this code writes).
-/

namespace Squll

/-- A note row as stored by Dexie (`db.ts` interface `Note`, minus `id`). -/
structure Note where
  content : String
  updatedAt : Nat
deriving Repr, DecidableEq

/-- A partial panel layout: the shape of `Partial<PanelLayout>` in
`src/storage/index.ts` and of the non-`id` fields of the stored `Layout`
row in `db.ts`.  An absent field is `none`. -/
structure LayoutRow where
  x : Option Int
  y : Option Int
  width : Option Int
  height : Option Int
  visible : Option Bool
  minimized : Option Bool
deriving Repr, DecidableEq

/-- A partial floating-button layout (`Partial<FloatingButtonLayout>` and
the non-`id` fields of the stored `ButtonLayout` row). -/
structure ButtonRow where
  x : Option Int
  y : Option Int
deriving Repr, DecidableEq

/-- The layout record with every field absent: the empty object. -/
def LayoutRow.empty : LayoutRow := ⟨none, none, none, none, none, none⟩

/-- The button-layout record with every field absent: the empty object. -/
def ButtonRow.empty : ButtonRow := ⟨none, none⟩

/-- A row as stored in a Dexie table: the primary key `id` together with
the data fields.  `put` with an object literal writes the whole row;
`stripId` drops the key again on read. -/
structure Stored (α : Type) where
  id : Nat
  fields : α
deriving Repr, DecidableEq

/-- `stripId` from `background.ts`: return the row minus its `id`. -/
def stripId {α : Type} (r : Stored α) : α := r.fields

/-- The Local Structured Store (`CrystalSkullDB` in `db.ts`): three
single-row tables.  Each `Option` holds the row stored under primary
key 1, the only key any code path reads or writes. -/
structure Db where
  notes : Option (Stored Note)
  layout : Option (Stored LayoutRow)
  buttonLayout : Option (Stored ButtonRow)
deriving Repr, DecidableEq

/-- The store with no rows at all: a freshly created, unmigrated store. -/
def Db.empty : Db := ⟨none, none, none⟩

/-- Page-local `localStorage`, restricted to the four fixed keys this
code touches.  A layout entry holds the record whose JSON serialization
the code stores under that key. -/
structure LocalStorage where
  cs_note : Option String
  cs_layout : Option LayoutRow
  cs_button_layout : Option ButtonRow
  cs_migrated_to_dexie : Option String
deriving Repr, DecidableEq

/-- Empty page-local storage. -/
def LocalStorage.empty : LocalStorage := ⟨none, none, none, none⟩

/-- The legacy `chrome.storage.sync` contents for the three migrated keys. -/
structure ChromeSync where
  content : Option String
  layout : Option LayoutRow
  buttonLayout : Option ButtonRow
deriving Repr, DecidableEq

/-- Legacy store with nothing to migrate. -/
def ChromeSync.empty : ChromeSync := ⟨none, none, none⟩

/-- The whole persistent state visible to the storage subsystem. -/
structure World where
  db : Db
  ls : LocalStorage
  sync : ChromeSync
deriving Repr, DecidableEq

/-- A fully empty world. -/
def World.empty : World := ⟨Db.empty, LocalStorage.empty, ChromeSync.empty⟩

/-- Fault-injection environment and execution context.  Each `Fails`
flag makes the corresponding external primitive throw; `bgFails` and
`brokerDbFails` carry the message the rejection or exception converts
to.  `now` is the value `Date.now()` returns during this call. -/
structure Env where
  isExtPage : Bool
  ctxValid : Bool
  now : Nat
  dbOpenFails : Bool
  dbOpFails : Bool
  bgFails : Option String
  brokerDbFails : Option String
  localGetFails : Bool
  localSetFails : Bool
  syncReadFails : Bool
  syncRemoveFails : Bool
  txNoteFails : Bool
  txLayoutFails : Bool
  txButtonFails : Bool
deriving Repr, DecidableEq

/-- The environment of a fault-free run on an extension page. -/
def Env.cleanExt (now : Nat) : Env :=
  ⟨true, true, now, false, false, none, none, false, false, false, false,
   false, false, false⟩

/-- The environment of a fault-free run in a delegated (content-script)
context. -/
def Env.cleanPage (now : Nat) : Env :=
  ⟨false, true, now, false, false, none, none, false, false, false, false,
   false, false, false⟩

/-! ## Legacy Store Migrator (`migrateFromChromeStorage`) -/

/-- `checkMigrationFlag`: reads the flag key from localStorage, comparing
with the string true; its own catch turns a throwing read into `false`. -/
def checkMigrationFlag (env : Env) (w : World) : Bool :=
  if env.localGetFails then false
  else w.ls.cs_migrated_to_dexie == some "true"

/-- `setMigrationFlag`: writes the flag key; its own catch swallows a
throwing write, leaving the state unchanged (only a warning is logged). -/
def setMigrationFlag (env : Env) (w : World) : World :=
  if env.localSetFails then w
  else { w with ls := { w.ls with cs_migrated_to_dexie := some "true" } }

/-- First conditional write of the migration transaction: `put` the note
row when the legacy `content` key is present. -/
def txPutNote (env : Env) (data : ChromeSync) (d : Db) : Except String Db :=
  match data.content with
  | none => Except.ok d
  | some c =>
      if env.txNoteFails then Except.error "notes put failed"
      else Except.ok { d with notes := some ⟨1, c, env.now⟩ }

/-- Second conditional write: `put` the panel-layout row when the legacy
`layout` key is present. -/
def txPutLayout (env : Env) (data : ChromeSync) (d : Db) : Except String Db :=
  match data.layout with
  | none => Except.ok d
  | some l =>
      if env.txLayoutFails then Except.error "layout put failed"
      else Except.ok { d with layout := some ⟨1, l⟩ }

/-- Third conditional write: `put` the button-layout row when the legacy
`buttonLayout` key is present. -/
def txPutButton (env : Env) (data : ChromeSync) (d : Db) : Except String Db :=
  match data.buttonLayout with
  | none => Except.ok d
  | some b =>
      if env.txButtonFails then Except.error "buttonLayout put failed"
      else Except.ok { d with buttonLayout := some ⟨1, b⟩ }

/-- The body of the migration transaction: the three conditional writes
in order; a throwing `put` aborts the body, and Dexie rolls the
transaction back, so the caller keeps the original `Db` in that case. -/
def migrationTxBody (env : Env) (data : ChromeSync) (d : Db) :
    Except String Db :=
  match txPutNote env data d with
  | Except.error e => Except.error e
  | Except.ok d1 =>
    match txPutLayout env data d1 with
    | Except.error e => Except.error e
    | Except.ok d2 => txPutButton env data d2

/-- The `db.transaction(rw, ...)` call with its `.catch` handler: on
success the new table contents commit; on failure the error is logged
and re-thrown (so the flag-setting step below it never runs). -/
def migrationTransaction (env : Env) (data : ChromeSync) (d : Db) :
    Except String Db :=
  migrationTxBody env data d

/-- How many `put` calls the transaction issues for this legacy data:
one per key present in the batched read. -/
def txWriteCount (data : ChromeSync) : Nat :=
  (if data.content.isSome then 1 else 0) +
  (if data.layout.isSome then 1 else 0) +
  (if data.buttonLayout.isSome then 1 else 0)

/-- Observable work done by one invocation of the migration routine:
how many batched legacy-store reads it issued and how many committed
`put` calls it made against the Local Structured Store. -/
structure MigStats where
  syncReads : Nat
  dbWrites : Nat
deriving Repr, DecidableEq

/-- `migrateFromChromeStorage`.  Early-returns when the completion flag
is set or the extension context is invalid; otherwise reads the three
legacy keys in one batched read, runs the atomic transaction, sets the
completion flag only after the transaction commits, then best-effort
clears the legacy keys.  Its outer catch swallows every failure (legacy
read rejection or transaction error), so the routine always resolves. -/
def migrateFromChromeStorage (env : Env) (w : World) : World × MigStats :=
  if checkMigrationFlag env w then (w, ⟨0, 0⟩)
  else if !env.ctxValid then (w, ⟨0, 0⟩)
  else if env.syncReadFails then (w, ⟨1, 0⟩)
  else
    let data := w.sync
    match migrationTransaction env data w.db with
    | Except.error _ => (w, ⟨1, 0⟩)
    | Except.ok d2 =>
        let w2 := setMigrationFlag env { w with db := d2 }
        let w3 :=
          if env.syncRemoveFails then w2
          else { w2 with sync := ChromeSync.empty }
        (w3, ⟨1, txWriteCount data⟩)

/-! ## Storage Broker (`background.ts` message listener) -/

/-- A storage request sent over the cross-context message channel: the
`type` string together with its payload, as a tagged union. -/
inductive Msg where
  | getNote
  | saveNote (content : String)
  | getLayout
  | saveLayout (layout : LayoutRow)
  | getButtonLayout
  | saveButtonLayout (layout : ButtonRow)
deriving Repr, DecidableEq

/-- The literal `type` string of a message. -/
def Msg.typeStr : Msg → String
  | .getNote => "storage:getNote"
  | .saveNote _ => "storage:saveNote"
  | .getLayout => "storage:getLayout"
  | .saveLayout _ => "storage:saveLayout"
  | .getButtonLayout => "storage:getButtonLayout"
  | .saveButtonLayout _ => "storage:saveButtonLayout"

/-- The `payload.layout` field of a message, when it is a panel-layout
save. -/
def Msg.payloadLayout : Msg → Option LayoutRow
  | .saveLayout l => some l
  | _ => none

/-- A response object sent back by the broker.  `layoutObj` with every
field `none` is the empty object; `errorResp` is the shape with an
`error` string. -/
inductive BgResponse where
  | noteContent (content : String)
  | layoutObj (l : LayoutRow)
  | buttonObj (b : ButtonRow)
  | ok
  | errorResp (msg : String)
deriving Repr, DecidableEq

/-- The `content` field of a response object, absent unless the response
carries one. -/
def BgResponse.contentField : BgResponse → Option String
  | .noteContent c => some c
  | _ => none

/-- The panel-layout fields of a response object: a response that is not
a layout object has every layout field absent. -/
def BgResponse.asLayout : BgResponse → LayoutRow
  | .layoutObj l => l
  | _ => LayoutRow.empty

/-- The button-layout fields of a response object. -/
def BgResponse.asButton : BgResponse → ButtonRow
  | .buttonObj b => b
  | _ => ButtonRow.empty

/-- Whether a response carries an `error` string. -/
def BgResponse.isError : BgResponse → Bool
  | .errorResp _ => true
  | _ => false

/-- The background page state: its module-level `dbOpened` flag. -/
structure BrokerState where
  dbOpened : Bool
deriving Repr, DecidableEq

/-- The asynchronous body of the `chrome.runtime.onMessage` listener for
a storage message: `ensureDbOpen`, then a switch on the `type` string,
each case doing one Dexie operation and calling `sendResponse`.  The
whole body sits in a try/catch whose catch responds with the error
converted to a string.  When `env.brokerDbFails` is set, the Dexie
operation of the taken case throws that message. -/
def brokerHandle (env : Env) (bs : BrokerState) (w : World) (m : Msg) :
    BgResponse × BrokerState × World :=
  let bs2 : BrokerState := ⟨true⟩
  match env.brokerDbFails with
  | some e => (BgResponse.errorResp e, bs, w)
  | none =>
    match m with
    | .getNote =>
        (BgResponse.noteContent ((w.db.notes.map (fun r => r.fields.content)).getD ""),
         bs2, w)
    | .saveNote c =>
        (BgResponse.ok, bs2,
         { w with db := { w.db with notes := some ⟨1, c, env.now⟩ } })
    | .getLayout =>
        (match w.db.layout with
         | none => BgResponse.layoutObj LayoutRow.empty
         | some r => BgResponse.layoutObj (stripId r),
         bs2, w)
    | .saveLayout l =>
        (BgResponse.ok, bs2,
         { w with db := { w.db with layout := some ⟨1, l⟩ } })
    | .getButtonLayout =>
        (match w.db.buttonLayout with
         | none => BgResponse.buttonObj ButtonRow.empty
         | some r => BgResponse.buttonObj (stripId r),
         bs2, w)
    | .saveButtonLayout b =>
        (BgResponse.ok, bs2,
         { w with db := { w.db with buttonLayout := some ⟨1, b⟩ } })

/-- The value the `onMessage` listener returns to the runtime after
scheduling its asynchronous body: literally `true`, which keeps the
response channel open until `sendResponse` is called. -/
def brokerListenerReturn : Bool := true

/-! ## Storage Facade (`src/storage/index.ts`) -/

/-- The facade module state: whether the memoized `dbInitPromise` is
present and resolved successfully.  The promise is cleared (back to
`false`) whenever the initialization body fails, so only a successful
initialization stays memoized across calls; the pending in-flight state
is studied separately by the `InitRace` model below. -/
structure FacadeState where
  memo : Bool
deriving Repr, DecidableEq

/-- Combined system state the facade operations act on. -/
structure Sys where
  w : World
  fs : FacadeState
  bs : BrokerState
deriving Repr, DecidableEq

/-- A system in its initial state over a given world. -/
def Sys.fresh (w : World) : Sys := ⟨w, ⟨false⟩, ⟨false⟩⟩

/-- What one facade operation did: its return value, the final system
state, the cross-context messages it sent, and how many direct Local
Structured Store accesses (open, get, put, transaction writes) it made. -/
structure OpOut (α : Type) where
  ret : α
  sys : Sys
  msgs : List Msg
  dbAccess : Nat
deriving Repr, DecidableEq

/-- `isExtensionPage`: true exactly when the page origin scheme is the
extension scheme (`env.isExtPage`). -/
def isExtensionPage (env : Env) : Bool := env.isExtPage

/-- `callBackground`: send one message over `chrome.runtime.sendMessage`
and resolve with the response, rejecting only when the messaging layer
itself fails (`chrome.runtime.lastError` set, or `sendMessage` throws);
a response object carrying an `error` field still resolves normally. -/
def callBackground (env : Env) (bs : BrokerState) (w : World) (m : Msg) :
    Except String (BgResponse × BrokerState × World) :=
  match env.bgFails with
  | some e => Except.error e
  | none => Except.ok (brokerHandle env bs w m)

/-- `ensureDbInitialized`, one whole run of its body at once: no-op when
the memoized promise is present; otherwise, on an extension page, open
Dexie (may throw) and run the migration, memoizing on success and
clearing the memo (and re-throwing) on failure; off an extension page
the body does nothing and memoizes success.  Also returns the number of
direct store accesses the body performed. -/
def ensureDbInitialized (env : Env) (s : Sys) : Except String Sys × Nat :=
  if s.fs.memo then (Except.ok s, 0)
  else if isExtensionPage env then
    if env.dbOpenFails then (Except.error "db open failed", 1)
    else
      let (w2, st) := migrateFromChromeStorage env s.w
      (Except.ok { s with w := w2, fs := ⟨true⟩ }, 1 + st.dbWrites)
  else (Except.ok { s with fs := ⟨true⟩ }, 0)

/-- Direct Dexie read of the note row, throwing when the store is
failing. -/
def dexieGetNote (env : Env) (w : World) : Except String (Option (Stored Note)) :=
  if env.dbOpFails then Except.error "db get failed" else Except.ok w.db.notes

/-- Direct Dexie read of the panel-layout row. -/
def dexieGetLayout (env : Env) (w : World) : Except String (Option (Stored LayoutRow)) :=
  if env.dbOpFails then Except.error "db get failed" else Except.ok w.db.layout

/-- Direct Dexie read of the button-layout row. -/
def dexieGetButton (env : Env) (w : World) : Except String (Option (Stored ButtonRow)) :=
  if env.dbOpFails then Except.error "db get failed" else Except.ok w.db.buttonLayout

/-- `loadNote`: initialization gate, then the context-appropriate read;
on any thrown error fall back to `localStorage.getItem` under the key
cs_note, and on a throwing fallback read return the empty string. -/
def loadNote (env : Env) (s : Sys) : OpOut String :=
  let fallback : Sys → List Msg → Nat → OpOut String := fun s m a =>
    if env.localGetFails then ⟨"", s, m, a⟩
    else ⟨(s.w.ls.cs_note).getD "", s, m, a⟩
  match ensureDbInitialized env s with
  | (Except.error _, a) => fallback s [] a
  | (Except.ok s1, a) =>
    if !isExtensionPage env then
      match callBackground env s1.bs s1.w Msg.getNote with
      | Except.error _ => fallback s1 [Msg.getNote] a
      | Except.ok (res, bs2, w2) =>
          ⟨(res.contentField).getD "", { s1 with bs := bs2, w := w2 },
           [Msg.getNote], a⟩
    else
      match dexieGetNote env s1.w with
      | Except.error _ => fallback s1 [] (a + 1)
      | Except.ok r =>
          ⟨(r.map (fun n => n.fields.content)).getD "", s1, [], a + 1⟩

/-- `saveNote`: initialization gate, then the context-appropriate upsert
of the single note row with a fresh timestamp; on any thrown error fall
back to writing the content string to localStorage under cs_note, and
swallow a throwing fallback write. -/
def saveNote (env : Env) (content : String) (s : Sys) : OpOut Unit :=
  let fallback : Sys → List Msg → Nat → OpOut Unit := fun s m a =>
    if env.localSetFails then ⟨(), s, m, a⟩
    else ⟨(), { s with w := { s.w with ls := { s.w.ls with cs_note := some content } } }, m, a⟩
  match ensureDbInitialized env s with
  | (Except.error _, a) => fallback s [] a
  | (Except.ok s1, a) =>
    if !isExtensionPage env then
      match callBackground env s1.bs s1.w (Msg.saveNote content) with
      | Except.error _ => fallback s1 [Msg.saveNote content] a
      | Except.ok (_, bs2, w2) =>
          ⟨(), { s1 with bs := bs2, w := w2 }, [Msg.saveNote content], a⟩
    else
      if env.dbOpFails then fallback s1 [] (a + 1)
      else
        ⟨(), { s1 with w := { s1.w with
            db := { s1.w.db with notes := some ⟨1, content, env.now⟩ } } },
         [], a + 1⟩

/-- `loadLayout`: initialization gate, then the context-appropriate
read, stripping the primary key from a stored row and returning the
empty object when no row exists; on any thrown error fall back to
parsing localStorage cs_layout, and return the empty object when the
fallback misses or throws. -/
def loadLayout (env : Env) (s : Sys) : OpOut LayoutRow :=
  let fallback : Sys → List Msg → Nat → OpOut LayoutRow := fun s m a =>
    if env.localGetFails then ⟨LayoutRow.empty, s, m, a⟩
    else ⟨(s.w.ls.cs_layout).getD LayoutRow.empty, s, m, a⟩
  match ensureDbInitialized env s with
  | (Except.error _, a) => fallback s [] a
  | (Except.ok s1, a) =>
    if !isExtensionPage env then
      match callBackground env s1.bs s1.w Msg.getLayout with
      | Except.error _ => fallback s1 [Msg.getLayout] a
      | Except.ok (res, bs2, w2) =>
          ⟨res.asLayout, { s1 with bs := bs2, w := w2 }, [Msg.getLayout], a⟩
    else
      match dexieGetLayout env s1.w with
      | Except.error _ => fallback s1 [] (a + 1)
      | Except.ok none => ⟨LayoutRow.empty, s1, [], a + 1⟩
      | Except.ok (some r) => ⟨stripId r, s1, [], a + 1⟩

/-- `saveLayout`: initialization gate, then the context-appropriate
whole-row upsert of the partial under primary key 1; on any thrown
error fall back to serializing the partial into localStorage cs_layout,
swallowing a throwing fallback write. -/
def saveLayout (env : Env) (l : LayoutRow) (s : Sys) : OpOut Unit :=
  let fallback : Sys → List Msg → Nat → OpOut Unit := fun s m a =>
    if env.localSetFails then ⟨(), s, m, a⟩
    else ⟨(), { s with w := { s.w with ls := { s.w.ls with cs_layout := some l } } }, m, a⟩
  match ensureDbInitialized env s with
  | (Except.error _, a) => fallback s [] a
  | (Except.ok s1, a) =>
    if !isExtensionPage env then
      match callBackground env s1.bs s1.w (Msg.saveLayout l) with
      | Except.error _ => fallback s1 [Msg.saveLayout l] a
      | Except.ok (_, bs2, w2) =>
          ⟨(), { s1 with bs := bs2, w := w2 }, [Msg.saveLayout l], a⟩
    else
      if env.dbOpFails then fallback s1 [] (a + 1)
      else
        ⟨(), { s1 with w := { s1.w with
            db := { s1.w.db with layout := some ⟨1, l⟩ } } },
         [], a + 1⟩

/-- `loadButtonLayout`: mirror of `loadLayout` over the button row and
the localStorage key cs_button_layout. -/
def loadButtonLayout (env : Env) (s : Sys) : OpOut ButtonRow :=
  let fallback : Sys → List Msg → Nat → OpOut ButtonRow := fun s m a =>
    if env.localGetFails then ⟨ButtonRow.empty, s, m, a⟩
    else ⟨(s.w.ls.cs_button_layout).getD ButtonRow.empty, s, m, a⟩
  match ensureDbInitialized env s with
  | (Except.error _, a) => fallback s [] a
  | (Except.ok s1, a) =>
    if !isExtensionPage env then
      match callBackground env s1.bs s1.w Msg.getButtonLayout with
      | Except.error _ => fallback s1 [Msg.getButtonLayout] a
      | Except.ok (res, bs2, w2) =>
          ⟨res.asButton, { s1 with bs := bs2, w := w2 }, [Msg.getButtonLayout], a⟩
    else
      match dexieGetButton env s1.w with
      | Except.error _ => fallback s1 [] (a + 1)
      | Except.ok none => ⟨ButtonRow.empty, s1, [], a + 1⟩
      | Except.ok (some r) => ⟨stripId r, s1, [], a + 1⟩

/-- `saveButtonLayout`: mirror of `saveLayout` over the button row and
the localStorage key cs_button_layout. -/
def saveButtonLayout (env : Env) (b : ButtonRow) (s : Sys) : OpOut Unit :=
  let fallback : Sys → List Msg → Nat → OpOut Unit := fun s m a =>
    if env.localSetFails then ⟨(), s, m, a⟩
    else ⟨(), { s with w := { s.w with ls := { s.w.ls with cs_button_layout := some b } } }, m, a⟩
  match ensureDbInitialized env s with
  | (Except.error _, a) => fallback s [] a
  | (Except.ok s1, a) =>
    if !isExtensionPage env then
      match callBackground env s1.bs s1.w (Msg.saveButtonLayout b) with
      | Except.error _ => fallback s1 [Msg.saveButtonLayout b] a
      | Except.ok (_, bs2, w2) =>
          ⟨(), { s1 with bs := bs2, w := w2 }, [Msg.saveButtonLayout b], a⟩
    else
      if env.dbOpFails then fallback s1 [] (a + 1)
      else
        ⟨(), { s1 with w := { s1.w with
            db := { s1.w.db with buttonLayout := some ⟨1, b⟩ } } },
         [], a + 1⟩

/-! ## Initialization race model

`ensureDbInitialized` in `src/storage/index.ts` memoizes a single
in-flight promise: the check `if (dbInitPromise) return dbInitPromise`
and the assignment `dbInitPromise = (async () => ...)()` run
synchronously with no suspension point between them, so a concurrent
caller arriving while the promise is pending receives the same promise
and creates no second body.  The async body later opens the store and
runs the migration; its catch clears `dbInitPromise` back to null and
re-throws, so a failed initialization is retried by the next caller.
The model below separates the synchronous check-and-set prefix from the
asynchronous body and counts store-open calls and migration attempts. -/

/-- Module state of the memoization: the id of the memoized promise (if
any), a fresh-id counter, and how many `db.open` calls and migration
attempts have run. -/
structure InitRace where
  memo : Option Nat
  nextId : Nat
  openCalls : Nat
  migrateAttempts : Nat
deriving Repr, DecidableEq

/-- The fresh module state: no promise, nothing run yet. -/
def InitRace.fresh : InitRace := ⟨none, 0, 0, 0⟩

/-- The synchronous prefix of one `ensureDbInitialized` call: return the
memoized promise when present, otherwise allocate and memoize a new one.
The returned Bool says whether this call created a new initialization
body. -/
def initStart (st : InitRace) : InitRace × Nat × Bool :=
  match st.memo with
  | some pid => (st, pid, false)
  | none =>
      let pid := st.nextId
      ({ st with memo := some pid, nextId := pid + 1 }, pid, true)

/-- One run of the asynchronous initialization body (extension page
case): call `db.open` — when `openOk` it resolves and the migration is
attempted once, otherwise the catch clears the memoized promise and the
promise rejects. -/
def initBody (openOk : Bool) (st : InitRace) : InitRace :=
  if openOk then
    { st with openCalls := st.openCalls + 1,
              migrateAttempts := st.migrateAttempts + 1 }
  else
    { st with openCalls := st.openCalls + 1, memo := none }

/-- Run a sequence of `saveNote` calls under one environment, threading
the system state. -/
def runSaves (env : Env) (cs : List String) (s : Sys) : Sys :=
  cs.foldl (fun s c => (saveNote env c s).sys) s

/-- The store contents a fault-free migration transaction commits: each
legacy key present in the read becomes a whole-row `put` under id 1. -/
def applyMigration (env : Env) (data : ChromeSync) (d : Db) : Db :=
  let d1 := match data.content with
    | none => d
    | some c => { d with notes := some ⟨1, c, env.now⟩ }
  let d2 := match data.layout with
    | none => d1
    | some l => { d1 with layout := some ⟨1, l⟩ }
  match data.buttonLayout with
    | none => d2
    | some b => { d2 with buttonLayout := some ⟨1, b⟩ }

/-- Environment of an otherwise fault-free extension-page run in which
only the localStorage write of the migration completion flag throws. -/
def envFlagFail (now : Nat) : Env :=
  { Env.cleanExt now with localSetFails := true }

/-! ## Helper lemmas -/

/-- When the completion flag reads as set, the migration routine is a
pure no-op: no legacy read, no store write, no state change. -/
theorem migrate_of_flag (env : Env) (v : World)
    (hv : checkMigrationFlag env v = true) :
    migrateFromChromeStorage env v = (v, ⟨0, 0⟩) := by
  unfold migrateFromChromeStorage
  simp [hv]

/-- With none of the three transaction writes throwing, the migration
transaction commits `applyMigration`. -/
theorem migrationTxBody_clean (env : Env) (data : ChromeSync) (d : Db)
    (h1 : env.txNoteFails = false) (h2 : env.txLayoutFails = false)
    (h3 : env.txButtonFails = false) :
    migrationTxBody env data d = Except.ok (applyMigration env data d) := by
  unfold migrationTxBody txPutNote txPutLayout txPutButton applyMigration
  rcases data.content with _ | c <;> rcases data.layout with _ | l <;>
    rcases data.buttonLayout with _ | b <;> simp [h1, h2, h3]

/-- When the memoized initialization promise is present, the
initialization gate is a pure no-op. -/
theorem ensure_memo (env : Env) (s : Sys) (h : s.fs.memo = true) :
    ensureDbInitialized env s = (Except.ok s, 0) := by
  simp [ensureDbInitialized, h]

/-- The migration routine never touches the page-local cs_note entry. -/
theorem migrate_ls_cs_note (env : Env) (w : World) :
    ((migrateFromChromeStorage env w).1).ls.cs_note = w.ls.cs_note := by
  unfold migrateFromChromeStorage
  cases h1 : checkMigrationFlag env w
  case true => simp
  cases h2 : env.ctxValid
  case false => simp
  cases h3 : env.syncReadFails
  case true => simp
  cases h4 : migrationTransaction env w.sync w.db
  case error e => simp [h4]
  case ok d2 =>
    simp only [Bool.not_true, Bool.false_eq_true, if_false, h4, setMigrationFlag]
    split <;> split <;> simp

/-- A successful migration transaction does not create a note row when
the legacy store had no content key. -/
theorem migrationTxBody_notes_none (env : Env) (data : ChromeSync) (d d2 : Db)
    (hc : data.content = none)
    (h : migrationTxBody env data d = Except.ok d2) :
    d2.notes = d.notes := by
  obtain ⟨dc, dl, dbl⟩ := data
  simp only at hc
  subst hc
  rcases dl with _ | l <;> rcases dbl with _ | b <;>
    rcases hf : env.txLayoutFails <;> rcases hg : env.txButtonFails <;>
      simp_all [migrationTxBody, txPutNote, txPutLayout, txPutButton] <;>
      simp [← h]

/-- The migration routine does not create a note row when the legacy
store had no content key. -/
theorem migrate_notes_of_none (env : Env) (w : World)
    (hc : w.sync.content = none) :
    ((migrateFromChromeStorage env w).1).db.notes = w.db.notes := by
  unfold migrateFromChromeStorage
  cases h1 : checkMigrationFlag env w
  case true => simp
  cases h2 : env.ctxValid
  case false => simp
  cases h3 : env.syncReadFails
  case true => simp
  cases h4 : migrationTransaction env w.sync w.db
  case error e => simp [h4]
  case ok d2 =>
    have hnotes := migrationTxBody_notes_none env w.sync w.db d2 hc h4
    simp only [Bool.not_true, Bool.false_eq_true, if_false, h4, setMigrationFlag]
    split <;> split <;> simp [hnotes]

/-- On an extension page with a store that opens, the initialization
gate either no-ops (memoized) or migrates and memoizes success. -/
theorem ensure_ext_ok (env : Env) (s : Sys)
    (hext : env.isExtPage = true) (hopen : env.dbOpenFails = false) :
    ensureDbInitialized env s =
      if s.fs.memo then (Except.ok s, 0)
      else
        (Except.ok { s with w := (migrateFromChromeStorage env s.w).1, fs := ⟨true⟩ },
         1 + (migrateFromChromeStorage env s.w).2.dbWrites) := by
  unfold ensureDbInitialized isExtensionPage
  cases hm : s.fs.memo <;> simp [hext, hopen, hm]

/-! ## Claim theorems -/

/-- C1: in the privileged/direct path, `saveLayout p` (and
`saveButtonLayout`, and the broker save-layout and save-button-layout
actions) overwrite-upserts the single row with fixed primary key 1:
whatever was stored before, the row afterwards is exactly `p` (plus the
key), so exactly the fields present in `p` are written, no deep merge
with the previously stored record occurs, and a field omitted from `p`
is absent after the write. -/
theorem saveLayout_overwrite_upsert (env : Env) (s : Sys)
    (p : LayoutRow) (b : ButtonRow) (bs : BrokerState) (w : World)
    (hext : env.isExtPage = true) (hopen : env.dbOpenFails = false)
    (hop : env.dbOpFails = false) (hbroker : env.brokerDbFails = none) :
    ((saveLayout env p s).sys).w.db.layout = some ⟨1, p⟩ ∧
    ((saveButtonLayout env b s).sys).w.db.buttonLayout = some ⟨1, b⟩ ∧
    (brokerHandle env bs w (Msg.saveLayout p)).2.2.db.layout = some ⟨1, p⟩ ∧
    (brokerHandle env bs w (Msg.saveButtonLayout b)).2.2.db.buttonLayout = some ⟨1, b⟩ := by
  refine ⟨?_, ?_, ?_, ?_⟩
  · unfold saveLayout
    rw [ensure_ext_ok env s hext hopen]
    cases hm : s.fs.memo <;> simp [hext, hopen, hop, hm, isExtensionPage]
  · unfold saveButtonLayout
    rw [ensure_ext_ok env s hext hopen]
    cases hm : s.fs.memo <;> simp [hext, hopen, hop, hm, isExtensionPage]
  · simp [brokerHandle, hbroker]
  · simp [brokerHandle, hbroker]

/-- Witness for the C1 theorem at concrete inputs: a previously stored
full layout does not survive saving the partial that only sets
visible to false. -/
theorem saveLayout_overwrite_upsert_witness :
    ((saveLayout (Env.cleanExt 0) ⟨none, none, none, none, some false, none⟩
      (Sys.fresh ⟨⟨none, some ⟨1, ⟨some 10, some 20, some 100, some 200, some true, none⟩⟩, none⟩,
        LocalStorage.empty, ChromeSync.empty⟩)).sys).w.db.layout
      = some ⟨1, ⟨none, none, none, none, some false, none⟩⟩ :=
  (saveLayout_overwrite_upsert (Env.cleanExt 0)
    (Sys.fresh ⟨⟨none, some ⟨1, ⟨some 10, some 20, some 100, some 200, some true, none⟩⟩, none⟩,
      LocalStorage.empty, ChromeSync.empty⟩)
    ⟨none, none, none, none, some false, none⟩ ⟨some 3, some 4⟩
    ⟨false⟩ World.empty rfl rfl rfl rfl).1

/-- C2: if the migration transaction fails partway (here: the third of
three writes throws), none of the three tables reflects any partial
write and the completion flag stays unset — the routine hands back the
world unchanged; the transaction surfaces its failure (an
`Except.error`) to the surrounding migration routine, which swallows it
and resolves, so initialization still succeeds and the system proceeds
over the unchanged (effectively empty) store. -/
theorem migration_atomic_on_tx_failure (env : Env) (w : World)
    (hflag : w.ls.cs_migrated_to_dexie = none)
    (hget : env.localGetFails = false)
    (hctx : env.ctxValid = true)
    (hread : env.syncReadFails = false)
    (hopen : env.dbOpenFails = false)
    (hext : env.isExtPage = true)
    (hbtn : env.txButtonFails = true)
    (hnote : env.txNoteFails = false) (hlay : env.txLayoutFails = false)
    (hc : w.sync.content.isSome = true) (hl : w.sync.layout.isSome = true)
    (hb : w.sync.buttonLayout.isSome = true) :
    migrationTransaction env w.sync w.db = Except.error "buttonLayout put failed" ∧
    migrateFromChromeStorage env w = (w, ⟨1, 0⟩) ∧
    (ensureDbInitialized env (Sys.fresh w)).1 = Except.ok ⟨w, ⟨true⟩, ⟨false⟩⟩ := by
  have htx : migrationTransaction env w.sync w.db
      = Except.error "buttonLayout put failed" := by
    obtain ⟨c, hc2⟩ := Option.isSome_iff_exists.mp hc
    obtain ⟨l, hl2⟩ := Option.isSome_iff_exists.mp hl
    obtain ⟨b, hb2⟩ := Option.isSome_iff_exists.mp hb
    unfold migrationTransaction migrationTxBody txPutNote txPutLayout txPutButton
    rw [hc2, hl2, hb2]
    simp [hnote, hlay, hbtn]
  have hcf : checkMigrationFlag env w = false := by
    simp [checkMigrationFlag, hget, hflag]
  have hmig : migrateFromChromeStorage env w = (w, ⟨1, 0⟩) := by
    unfold migrateFromChromeStorage
    simp [hcf, hctx, hread, htx]
  refine ⟨htx, hmig, ?_⟩
  rw [ensure_ext_ok env (Sys.fresh w) hext hopen]
  simp [Sys.fresh, hmig]

/-- Witness for the C2 theorem: a concrete world whose three legacy keys
are all present, under an environment whose third transaction write
throws. -/
theorem migration_atomic_on_tx_failure_witness :
    migrationTransaction { Env.cleanExt 0 with txButtonFails := true }
        (⟨some "n", some LayoutRow.empty, some ButtonRow.empty⟩ : ChromeSync) Db.empty
      = Except.error "buttonLayout put failed" ∧
    migrateFromChromeStorage { Env.cleanExt 0 with txButtonFails := true }
        ⟨Db.empty, LocalStorage.empty, ⟨some "n", some LayoutRow.empty, some ButtonRow.empty⟩⟩
      = (⟨Db.empty, LocalStorage.empty, ⟨some "n", some LayoutRow.empty, some ButtonRow.empty⟩⟩, ⟨1, 0⟩) ∧
    (ensureDbInitialized { Env.cleanExt 0 with txButtonFails := true }
        (Sys.fresh ⟨Db.empty, LocalStorage.empty, ⟨some "n", some LayoutRow.empty, some ButtonRow.empty⟩⟩)).1
      = Except.ok ⟨⟨Db.empty, LocalStorage.empty, ⟨some "n", some LayoutRow.empty, some ButtonRow.empty⟩⟩,
          ⟨true⟩, ⟨false⟩⟩ :=
  migration_atomic_on_tx_failure { Env.cleanExt 0 with txButtonFails := true }
    ⟨Db.empty, LocalStorage.empty, ⟨some "n", some LayoutRow.empty, some ButtonRow.empty⟩⟩
    rfl rfl rfl rfl rfl rfl rfl rfl rfl rfl rfl rfl

/-- Every run of the migration routine either leaves the world unchanged
with zero store writes, or leaves the completion flag set (provided the
flag write itself does not throw). -/
theorem migrate_run_cases (env : Env) (w : World)
    (hset : env.localSetFails = false) :
    migrateFromChromeStorage env w = (w, ⟨0, 0⟩) ∨
    migrateFromChromeStorage env w = (w, ⟨1, 0⟩) ∨
    ((migrateFromChromeStorage env w).1).ls.cs_migrated_to_dexie = some "true" := by
  unfold migrateFromChromeStorage
  cases h1 : checkMigrationFlag env w
  case true => left; simp
  cases h2 : env.ctxValid
  case false => left; simp
  cases h3 : env.syncReadFails
  case true => right; left; simp
  cases h4 : migrationTransaction env w.sync w.db
  case error e => right; left; simp [h4]
  case ok d2 =>
    right; right
    simp only [Bool.not_true, Bool.false_eq_true, if_false, h4, setMigrationFlag, hset]
    split <;> simp

/-- C3: invoking the migration routine twice in succession leaves the
Local Structured Store in the same final state as invoking it once, and
the second invocation performs zero writes to the store; moreover once
the persisted completion flag reads as set, a repeat invocation is a
full no-op (no legacy read and no write).  The hypotheses say the
page-local flag store is working (its reads and writes do not throw). -/
theorem migration_idempotent (env : Env) (w : World)
    (hget : env.localGetFails = false) (hset : env.localSetFails = false) :
    (migrateFromChromeStorage env (migrateFromChromeStorage env w).1).1
      = (migrateFromChromeStorage env w).1 ∧
    (migrateFromChromeStorage env (migrateFromChromeStorage env w).1).2.dbWrites = 0 ∧
    (checkMigrationFlag env (migrateFromChromeStorage env w).1 = true →
      migrateFromChromeStorage env (migrateFromChromeStorage env w).1
        = ((migrateFromChromeStorage env w).1, ⟨0, 0⟩)) := by
  rcases migrate_run_cases env w hset with h | h | h
  · exact ⟨by simp [h], by simp [h], fun hf => by simp [h]⟩
  · refine ⟨by simp [h], by simp [h], fun hf => ?_⟩
    simp only [h] at hf
    have h0 := migrate_of_flag env w hf
    rw [h] at h0
    simp at h0
  · have hcf : checkMigrationFlag env (migrateFromChromeStorage env w).1 = true := by
      simp [checkMigrationFlag, hget, h]
    have h2 := migrate_of_flag env (migrateFromChromeStorage env w).1 hcf
    exact ⟨by simp [h2], by simp [h2], fun _ => h2⟩

/-- Witness for the C3 theorem: one migration of a concrete legacy note,
then a repeat invocation, under a fault-free extension-page
environment. -/
theorem migration_idempotent_witness :
    (migrateFromChromeStorage (Env.cleanExt 0)
        (migrateFromChromeStorage (Env.cleanExt 0)
          ⟨Db.empty, LocalStorage.empty, ⟨some "n", none, none⟩⟩).1).1
      = (migrateFromChromeStorage (Env.cleanExt 0)
          ⟨Db.empty, LocalStorage.empty, ⟨some "n", none, none⟩⟩).1 ∧
    (migrateFromChromeStorage (Env.cleanExt 0)
        (migrateFromChromeStorage (Env.cleanExt 0)
          ⟨Db.empty, LocalStorage.empty, ⟨some "n", none, none⟩⟩).1).2.dbWrites = 0 ∧
    (checkMigrationFlag (Env.cleanExt 0)
        (migrateFromChromeStorage (Env.cleanExt 0)
          ⟨Db.empty, LocalStorage.empty, ⟨some "n", none, none⟩⟩).1 = true →
      migrateFromChromeStorage (Env.cleanExt 0)
          (migrateFromChromeStorage (Env.cleanExt 0)
            ⟨Db.empty, LocalStorage.empty, ⟨some "n", none, none⟩⟩).1
        = ((migrateFromChromeStorage (Env.cleanExt 0)
            ⟨Db.empty, LocalStorage.empty, ⟨some "n", none, none⟩⟩).1, ⟨0, 0⟩)) :=
  migration_idempotent (Env.cleanExt 0)
    ⟨Db.empty, LocalStorage.empty, ⟨some "n", none, none⟩⟩ rfl rfl

/-- C4: two facade operations issued concurrently before any
initialization share the single memoized in-flight promise: the first
call creates it, the second call receives the same promise and creates
no second initialization body, so exactly one store-open call and
exactly one migration attempt run; and when the initialization body
fails, the memoized promise is cleared, so a subsequent call allocates
a fresh promise and retries instead of being permanently wedged. -/
theorem init_single_flight_and_retry :
    (initStart InitRace.fresh).2.1
      = (initStart (initStart InitRace.fresh).1).2.1 ∧
    (initStart InitRace.fresh).2.2 = true ∧
    (initStart (initStart InitRace.fresh).1).2.2 = false ∧
    (initBody true (initStart (initStart InitRace.fresh).1).1).openCalls = 1 ∧
    (initBody true (initStart (initStart InitRace.fresh).1).1).migrateAttempts = 1 ∧
    (initBody false (initStart (initStart InitRace.fresh).1).1).memo = none ∧
    (initStart (initBody false (initStart (initStart InitRace.fresh).1).1)).2.2 = true := by
  decide

/-- C5 (amended): any exception thrown during broker handling of a
storage action produces a response object carrying an error string, and
the listener returns true so the message channel stays open until the
asynchronous handler resolves; however, the delegated caller resolves
such an error-carrying response as ordinary data — its page-local
fallback is triggered only when the messaging layer itself fails (a
rejected send), not by an error field in a delivered response. -/
theorem broker_error_response_handling (env env2 : Env) (bs : BrokerState)
    (w : World) (s : Sys) (m : Msg) (e : String) (p : LayoutRow)
    (h1 : env.brokerDbFails = some e)
    (h2 : env.isExtPage = false) (h3 : env.bgFails = none)
    (h5 : env2.isExtPage = false) (h6 : env2.bgFails = some e)
    (h7 : env2.localSetFails = false) :
    (brokerHandle env bs w m).1 = BgResponse.errorResp e ∧
    brokerListenerReturn = true ∧
    (saveLayout env p s).sys.w.ls = s.w.ls ∧
    (saveLayout env2 p s).sys.w.ls.cs_layout = some p := by
  refine ⟨by simp [brokerHandle, h1], rfl, ?_, ?_⟩
  · unfold saveLayout ensureDbInitialized isExtensionPage
    cases hm : s.fs.memo <;>
      simp [h2, callBackground, h3, brokerHandle, h1]
  · unfold saveLayout ensureDbInitialized isExtensionPage
    cases hm : s.fs.memo <;>
      simp [h5, callBackground, h6, h7]

/-- Witness for the C5 amended theorem at concrete inputs. -/
theorem broker_error_response_handling_witness :
    (brokerHandle { Env.cleanPage 0 with brokerDbFails := some "boom" } ⟨false⟩
        World.empty Msg.getNote).1 = BgResponse.errorResp "boom" ∧
    brokerListenerReturn = true ∧
    (saveLayout { Env.cleanPage 0 with brokerDbFails := some "boom" }
        ⟨some 5, none, none, none, none, none⟩ (Sys.fresh World.empty)).sys.w.ls
      = (Sys.fresh World.empty).w.ls ∧
    (saveLayout { Env.cleanPage 0 with bgFails := some "boom" }
        ⟨some 5, none, none, none, none, none⟩ (Sys.fresh World.empty)).sys.w.ls.cs_layout
      = some ⟨some 5, none, none, none, none, none⟩ :=
  broker_error_response_handling
    { Env.cleanPage 0 with brokerDbFails := some "boom" }
    { Env.cleanPage 0 with bgFails := some "boom" }
    ⟨false⟩ World.empty (Sys.fresh World.empty) Msg.getNote "boom"
    ⟨some 5, none, none, none, none, none⟩ rfl rfl rfl rfl rfl rfl

/-- C5 counterexample: at this concrete input the broker responds with
an error string for the delegated save, yet the caller does not treat
that error response as a failure — the page-local fallback entry keeps
its old value instead of receiving the partial being saved, refuting
the claim that an error response triggers the page-local fallback. -/
theorem broker_error_no_caller_fallback_counterexample :
    (brokerHandle { Env.cleanPage 0 with brokerDbFails := some "boom" } ⟨false⟩
        ⟨Db.empty, ⟨none, some ⟨some 9, none, none, none, none, none⟩, none, none⟩, ChromeSync.empty⟩
        (Msg.saveLayout ⟨some 5, none, none, none, none, none⟩)).1
      = BgResponse.errorResp "boom" ∧
    (saveLayout { Env.cleanPage 0 with brokerDbFails := some "boom" }
        ⟨some 5, none, none, none, none, none⟩
        (Sys.fresh ⟨Db.empty, ⟨none, some ⟨some 9, none, none, none, none, none⟩, none, none⟩,
          ChromeSync.empty⟩)).sys.w.ls.cs_layout
      = some ⟨some 9, none, none, none, none, none⟩ ∧
    (⟨some 9, none, none, none, none, none⟩ : LayoutRow)
      ≠ ⟨some 5, none, none, none, none, none⟩ := by
  decide

/-- C6: `loadNote` never raises (it is a total function into String):
on an empty store it returns the empty string; when the direct path or
the delegated message round-trip throws, it returns the page-local
value stored under the fixed key cs_note, or the empty string when
that key is absent; and when even the page-local read throws, it
returns the empty string. -/
theorem loadNote_never_raises (now : Nat) (s : Sys) (e : String) (g : Bool)
    (hn : s.w.db.notes = none) (hc : s.w.sync.content = none) :
    (loadNote (Env.cleanExt now) s).ret = "" ∧
    ((loadNote { Env.cleanExt now with dbOpFails := true, localGetFails := g } s).ret
      = if g then "" else (s.w.ls.cs_note).getD "") ∧
    ((loadNote { Env.cleanPage now with bgFails := some e, localGetFails := g } s).ret
      = if g then "" else (s.w.ls.cs_note).getD "") := by
  refine ⟨?_, ?_, ?_⟩
  · unfold loadNote
    rw [ensure_ext_ok _ _ rfl rfl]
    cases hm : s.fs.memo
    case true => simp [isExtensionPage, Env.cleanExt, dexieGetNote, hn]
    case false =>
      have h1 := migrate_notes_of_none (Env.cleanExt now) s.w hc
      simp only [Env.cleanExt] at h1
      simp [isExtensionPage, Env.cleanExt, dexieGetNote, h1, hn]
  · unfold loadNote
    rw [ensure_ext_ok _ _ rfl rfl]
    cases hm : s.fs.memo
    case true =>
      cases g <;> simp [isExtensionPage, Env.cleanExt, dexieGetNote]
    case false =>
      have h1 := migrate_ls_cs_note
        { Env.cleanExt now with dbOpFails := true, localGetFails := g } s.w
      simp only [Env.cleanExt] at h1
      cases g <;> simp_all [isExtensionPage, Env.cleanExt, dexieGetNote]
  · unfold loadNote ensureDbInitialized isExtensionPage
    cases hm : s.fs.memo <;> cases g <;>
      simp [Env.cleanPage, callBackground]

/-- Witness for the C6 theorem: a concrete system whose store is empty
but whose page-local fallback holds a note. -/
theorem loadNote_never_raises_witness :
    (loadNote (Env.cleanExt 3)
        (Sys.fresh ⟨Db.empty, ⟨some "fb", none, none, none⟩, ChromeSync.empty⟩)).ret = "" ∧
    ((loadNote { Env.cleanExt 3 with dbOpFails := true, localGetFails := false }
        (Sys.fresh ⟨Db.empty, ⟨some "fb", none, none, none⟩, ChromeSync.empty⟩)).ret
      = if false then ""
        else ((Sys.fresh ⟨Db.empty, ⟨some "fb", none, none, none⟩, ChromeSync.empty⟩).w.ls.cs_note).getD "") ∧
    ((loadNote { Env.cleanPage 3 with bgFails := some "err", localGetFails := false }
        (Sys.fresh ⟨Db.empty, ⟨some "fb", none, none, none⟩, ChromeSync.empty⟩)).ret
      = if false then ""
        else ((Sys.fresh ⟨Db.empty, ⟨some "fb", none, none, none⟩, ChromeSync.empty⟩).w.ls.cs_note).getD "") :=
  loadNote_never_raises 3
    (Sys.fresh ⟨Db.empty, ⟨some "fb", none, none, none⟩, ChromeSync.empty⟩)
    "err" false rfl rfl

/-- After any fault-free extension-page `saveNote c`, the note table
holds exactly the row with id 1, content c, and the save-time
timestamp, and the initialization promise is memoized. -/
theorem saveNote_cleanExt_notes (now : Nat) (c : String) (s : Sys) :
    ((saveNote (Env.cleanExt now) c s).sys).w.db.notes = some ⟨1, c, now⟩ ∧
    ((saveNote (Env.cleanExt now) c s).sys).fs.memo = true := by
  unfold saveNote
  rw [ensure_ext_ok _ _ rfl rfl]
  cases hm : s.fs.memo <;> simp [isExtensionPage, Env.cleanExt, hm]

/-- A fault-free extension-page `loadNote` on a memoized system returns
the content of the stored note row. -/
theorem loadNote_cleanExt_memo (now : Nat) (s : Sys) (r : Stored Note)
    (hm : s.fs.memo = true) (hn : s.w.db.notes = some r) :
    (loadNote (Env.cleanExt now) s).ret = r.fields.content := by
  unfold loadNote
  rw [ensure_memo _ _ hm]
  simp [isExtensionPage, Env.cleanExt, dexieGetNote, hn]

/-- C7: for every sequence of saved contents the last write wins and
nothing is appended — after saves of the contents cs followed by c,
`loadNote` returns c and the single note row holds exactly c with the
fresh save-time timestamp; in particular saveNote hello then loadNote
gives hello, and saveNote hello, saveNote world, loadNote gives
world. -/
theorem saveNote_last_write_wins (now : Nat) (s : Sys) (cs : List String)
    (c : String) :
    (loadNote (Env.cleanExt now)
        (runSaves (Env.cleanExt now) (cs ++ [c]) s)).ret = c ∧
    (runSaves (Env.cleanExt now) (cs ++ [c]) s).w.db.notes = some ⟨1, c, now⟩ ∧
    (loadNote (Env.cleanExt 7)
        ((saveNote (Env.cleanExt 7) "hello" (Sys.fresh World.empty)).sys)).ret
      = "hello" ∧
    (loadNote (Env.cleanExt 7)
        ((saveNote (Env.cleanExt 7) "world"
          ((saveNote (Env.cleanExt 7) "hello" (Sys.fresh World.empty)).sys)).sys)).ret
      = "world" := by
  have hlast : runSaves (Env.cleanExt now) (cs ++ [c]) s
      = (saveNote (Env.cleanExt now) c (runSaves (Env.cleanExt now) cs s)).sys := by
    unfold runSaves
    rw [List.foldl_append]
    rfl
  obtain ⟨h1, h2⟩ := saveNote_cleanExt_notes now c (runSaves (Env.cleanExt now) cs s)
  rw [hlast]
  exact ⟨loadNote_cleanExt_memo now _ ⟨1, c, now⟩ h2 h1, h1, by decide, by decide⟩

/-- C8: in a delegated (non-extension-page) context, `saveLayout p`
sends exactly one cross-context message, of type storage:saveLayout,
whose payload.layout is the given partial p, and performs zero direct
Local Structured Store accesses. -/
theorem saveLayout_delegated_dispatch (env : Env) (s : Sys) (p : LayoutRow)
    (hpage : env.isExtPage = false) :
    (saveLayout env p s).msgs = [Msg.saveLayout p] ∧
    (Msg.saveLayout p).typeStr = "storage:saveLayout" ∧
    (Msg.saveLayout p).payloadLayout = some p ∧
    (saveLayout env p s).dbAccess = 0 := by
  unfold saveLayout ensureDbInitialized isExtensionPage
  cases hm : s.fs.memo <;>
    rcases hbg : env.bgFails with _ | e <;>
      cases hls : env.localSetFails <;>
        simp [hpage, hbg, hls, callBackground, Msg.typeStr, Msg.payloadLayout]

/-- Witness for the C8 theorem at a concrete delegated environment and
partial layout. -/
theorem saveLayout_delegated_dispatch_witness :
    (saveLayout (Env.cleanPage 0) ⟨some 1, none, none, none, none, none⟩
        (Sys.fresh World.empty)).msgs
      = [Msg.saveLayout ⟨some 1, none, none, none, none, none⟩] ∧
    (Msg.saveLayout (⟨some 1, none, none, none, none, none⟩ : LayoutRow)).typeStr
      = "storage:saveLayout" ∧
    (Msg.saveLayout (⟨some 1, none, none, none, none, none⟩ : LayoutRow)).payloadLayout
      = some ⟨some 1, none, none, none, none, none⟩ ∧
    (saveLayout (Env.cleanPage 0) ⟨some 1, none, none, none, none, none⟩
        (Sys.fresh World.empty)).dbAccess = 0 :=
  saveLayout_delegated_dispatch (Env.cleanPage 0) (Sys.fresh World.empty)
    ⟨some 1, none, none, none, none, none⟩ rfl

/-- C9: the broker get-layout and get-button-layout actions return the
stored partial record with the internal primary key id stripped out,
and the empty object when no record exists; likewise the direct
`loadLayout` and `loadButtonLayout` return the key-stripped record, and
against a freshly created, unmigrated, empty store they return the
empty object (the total return type rules out undefined and errors). -/
theorem get_layout_default_on_empty (env : Env) (bs : BrokerState)
    (w0 w1 : World) (s1 : Sys) (r : Stored LayoutRow) (rb : Stored ButtonRow) (now : Nat)
    (hbroker : env.brokerDbFails = none)
    (h0l : w0.db.layout = none) (h0b : w0.db.buttonLayout = none)
    (h1l : w1.db.layout = some r) (h1b : w1.db.buttonLayout = some rb)
    (hm : s1.fs.memo = true)
    (hsl : s1.w.db.layout = some r) (hsb : s1.w.db.buttonLayout = some rb) :
    (brokerHandle env bs w0 Msg.getLayout).1 = BgResponse.layoutObj LayoutRow.empty ∧
    (brokerHandle env bs w0 Msg.getButtonLayout).1 = BgResponse.buttonObj ButtonRow.empty ∧
    (brokerHandle env bs w1 Msg.getLayout).1 = BgResponse.layoutObj (stripId r) ∧
    (brokerHandle env bs w1 Msg.getButtonLayout).1 = BgResponse.buttonObj (stripId rb) ∧
    (loadLayout (Env.cleanExt now) s1).ret = stripId r ∧
    (loadButtonLayout (Env.cleanExt now) s1).ret = stripId rb ∧
    (loadLayout (Env.cleanExt now) (Sys.fresh World.empty)).ret = LayoutRow.empty ∧
    (loadButtonLayout (Env.cleanExt now) (Sys.fresh World.empty)).ret = ButtonRow.empty ∧
    (loadLayout (Env.cleanPage now) (Sys.fresh World.empty)).ret = LayoutRow.empty := by
  refine ⟨?_, ?_, ?_, ?_, ?_, ?_, ?_, ?_, ?_⟩
  · simp [brokerHandle, hbroker, h0l]
  · simp [brokerHandle, hbroker, h0b]
  · simp [brokerHandle, hbroker, h1l]
  · simp [brokerHandle, hbroker, h1b]
  · unfold loadLayout
    rw [ensure_memo _ _ hm]
    simp [isExtensionPage, Env.cleanExt, dexieGetLayout, hsl]
  · unfold loadButtonLayout
    rw [ensure_memo _ _ hm]
    simp [isExtensionPage, Env.cleanExt, dexieGetButton, hsb]
  · unfold loadLayout
    rw [ensure_ext_ok _ _ rfl rfl]
    simp [Sys.fresh, isExtensionPage, Env.cleanExt, dexieGetLayout,
      migrateFromChromeStorage, checkMigrationFlag, migrationTransaction,
      migrationTxBody, txPutNote, txPutLayout, txPutButton, setMigrationFlag,
      World.empty, Db.empty, LocalStorage.empty, ChromeSync.empty]
  · unfold loadButtonLayout
    rw [ensure_ext_ok _ _ rfl rfl]
    simp [Sys.fresh, isExtensionPage, Env.cleanExt, dexieGetButton,
      migrateFromChromeStorage, checkMigrationFlag, migrationTransaction,
      migrationTxBody, txPutNote, txPutLayout, txPutButton, setMigrationFlag,
      World.empty, Db.empty, LocalStorage.empty, ChromeSync.empty]
  · unfold loadLayout ensureDbInitialized isExtensionPage
    simp [Env.cleanPage, Sys.fresh, callBackground, brokerHandle,
      World.empty, Db.empty, BgResponse.asLayout]

/-- Witness for the C9 theorem: a concrete broker state, one world with
no layout rows, one world with both rows stored under id 1, and a
memoized system over the latter for the privileged direct reads. -/
theorem get_layout_default_on_empty_witness :
    (brokerHandle (Env.cleanExt 0) ⟨false⟩ World.empty Msg.getLayout).1
      = BgResponse.layoutObj LayoutRow.empty ∧
    (brokerHandle (Env.cleanExt 0) ⟨false⟩ World.empty Msg.getButtonLayout).1
      = BgResponse.buttonObj ButtonRow.empty ∧
    (brokerHandle (Env.cleanExt 0) ⟨false⟩
        ⟨⟨none, some ⟨1, ⟨some 2, none, none, none, none, none⟩⟩, some ⟨1, ⟨some 3, some 4⟩⟩⟩,
          LocalStorage.empty, ChromeSync.empty⟩ Msg.getLayout).1
      = BgResponse.layoutObj (stripId (⟨1, ⟨some 2, none, none, none, none, none⟩⟩ : Stored LayoutRow)) ∧
    (brokerHandle (Env.cleanExt 0) ⟨false⟩
        ⟨⟨none, some ⟨1, ⟨some 2, none, none, none, none, none⟩⟩, some ⟨1, ⟨some 3, some 4⟩⟩⟩,
          LocalStorage.empty, ChromeSync.empty⟩ Msg.getButtonLayout).1
      = BgResponse.buttonObj (stripId (⟨1, ⟨some 3, some 4⟩⟩ : Stored ButtonRow)) ∧
    (loadLayout (Env.cleanExt 0)
        ⟨⟨⟨none, some ⟨1, ⟨some 2, none, none, none, none, none⟩⟩, some ⟨1, ⟨some 3, some 4⟩⟩⟩,
          LocalStorage.empty, ChromeSync.empty⟩, ⟨true⟩, ⟨false⟩⟩).ret
      = stripId (⟨1, ⟨some 2, none, none, none, none, none⟩⟩ : Stored LayoutRow) ∧
    (loadButtonLayout (Env.cleanExt 0)
        ⟨⟨⟨none, some ⟨1, ⟨some 2, none, none, none, none, none⟩⟩, some ⟨1, ⟨some 3, some 4⟩⟩⟩,
          LocalStorage.empty, ChromeSync.empty⟩, ⟨true⟩, ⟨false⟩⟩).ret
      = stripId (⟨1, ⟨some 3, some 4⟩⟩ : Stored ButtonRow) ∧
    (loadLayout (Env.cleanExt 0) (Sys.fresh World.empty)).ret = LayoutRow.empty ∧
    (loadButtonLayout (Env.cleanExt 0) (Sys.fresh World.empty)).ret = ButtonRow.empty ∧
    (loadLayout (Env.cleanPage 0) (Sys.fresh World.empty)).ret = LayoutRow.empty :=
  get_layout_default_on_empty (Env.cleanExt 0) ⟨false⟩ World.empty
    ⟨⟨none, some ⟨1, ⟨some 2, none, none, none, none, none⟩⟩, some ⟨1, ⟨some 3, some 4⟩⟩⟩,
      LocalStorage.empty, ChromeSync.empty⟩
    ⟨⟨⟨none, some ⟨1, ⟨some 2, none, none, none, none, none⟩⟩, some ⟨1, ⟨some 3, some 4⟩⟩⟩,
      LocalStorage.empty, ChromeSync.empty⟩, ⟨true⟩, ⟨false⟩⟩
    ⟨1, ⟨some 2, none, none, none, none, none⟩⟩ ⟨1, ⟨some 3, some 4⟩⟩ 0
    rfl rfl rfl rfl rfl rfl rfl rfl

/-- C10: when persisting the migration completion flag throws, the
routine only logs and continues — the transaction result is still
committed, the legacy keys are still cleared, and the routine resolves;
but the flag remains unset, so the next invocation runs the migration
body again (it performs a legacy-store read instead of early-returning),
whereas when the flag write succeeds the repeat invocation does
nothing — at-most-once migration holds only when the flag write
succeeds. -/
theorem migration_flag_write_failure (now : Nat) (w : World)
    (hflag : w.ls.cs_migrated_to_dexie = none) :
    migrationTransaction (envFlagFail now) w.sync w.db
      = Except.ok ((migrateFromChromeStorage (envFlagFail now) w).1.db) ∧
    (migrateFromChromeStorage (envFlagFail now) w).1.sync = ChromeSync.empty ∧
    (migrateFromChromeStorage (envFlagFail now) w).1.ls.cs_migrated_to_dexie = none ∧
    (migrateFromChromeStorage (envFlagFail now)
        (migrateFromChromeStorage (envFlagFail now) w).1).2 = ⟨1, 0⟩ ∧
    (migrateFromChromeStorage (Env.cleanExt now)
        ((migrateFromChromeStorage (Env.cleanExt now) w).1)).2 = ⟨0, 0⟩ := by
  have htx := migrationTxBody_clean (envFlagFail now) w.sync w.db rfl rfl rfl
  have hchar : migrateFromChromeStorage (envFlagFail now) w
      = (⟨applyMigration (envFlagFail now) w.sync w.db, w.ls, ChromeSync.empty⟩,
         ⟨1, txWriteCount w.sync⟩) := by
    unfold migrateFromChromeStorage migrationTransaction
    simp only [envFlagFail, Env.cleanExt] at htx
    simp [checkMigrationFlag, envFlagFail, Env.cleanExt, hflag, htx, setMigrationFlag]
  have htx2 := migrationTxBody_clean (envFlagFail now) ChromeSync.empty
    (applyMigration (envFlagFail now) w.sync w.db) rfl rfl rfl
  have hchar2 : migrateFromChromeStorage (envFlagFail now)
      (⟨applyMigration (envFlagFail now) w.sync w.db, w.ls, ChromeSync.empty⟩ : World)
      = (⟨applyMigration (envFlagFail now) ChromeSync.empty
            (applyMigration (envFlagFail now) w.sync w.db), w.ls, ChromeSync.empty⟩,
         ⟨1, txWriteCount ChromeSync.empty⟩) := by
    unfold migrateFromChromeStorage migrationTransaction
    simp only [envFlagFail, Env.cleanExt] at htx2
    simp [checkMigrationFlag, envFlagFail, Env.cleanExt, hflag, htx2, setMigrationFlag]
  have htxc := migrationTxBody_clean (Env.cleanExt now) w.sync w.db rfl rfl rfl
  have hcleanchar : migrateFromChromeStorage (Env.cleanExt now) w
      = (⟨applyMigration (Env.cleanExt now) w.sync w.db,
          { w.ls with cs_migrated_to_dexie := some "true" }, ChromeSync.empty⟩,
         ⟨1, txWriteCount w.sync⟩) := by
    unfold migrateFromChromeStorage migrationTransaction
    simp only [Env.cleanExt] at htxc
    simp [checkMigrationFlag, Env.cleanExt, hflag, htxc, setMigrationFlag]
  have hflagset : checkMigrationFlag (Env.cleanExt now)
      (⟨applyMigration (Env.cleanExt now) w.sync w.db,
        { w.ls with cs_migrated_to_dexie := some "true" }, ChromeSync.empty⟩ : World)
      = true := by
    simp [checkMigrationFlag, Env.cleanExt]
  refine ⟨?_, ?_, ?_, ?_, ?_⟩
  · rw [hchar]
    exact htx
  · rw [hchar]
  · rw [hchar]
    exact hflag
  · rw [hchar, hchar2]
    simp [txWriteCount, ChromeSync.empty]
  · rw [hcleanchar, migrate_of_flag (Env.cleanExt now) _ hflagset]

/-- Witness for the C10 theorem: a concrete world holding one legacy
note and no completion flag. -/
theorem migration_flag_write_failure_witness :
    migrationTransaction (envFlagFail 0)
        (⟨some "n", none, none⟩ : ChromeSync) Db.empty
      = Except.ok ((migrateFromChromeStorage (envFlagFail 0)
          ⟨Db.empty, LocalStorage.empty, ⟨some "n", none, none⟩⟩).1.db) ∧
    (migrateFromChromeStorage (envFlagFail 0)
        ⟨Db.empty, LocalStorage.empty, ⟨some "n", none, none⟩⟩).1.sync = ChromeSync.empty ∧
    (migrateFromChromeStorage (envFlagFail 0)
        ⟨Db.empty, LocalStorage.empty, ⟨some "n", none, none⟩⟩).1.ls.cs_migrated_to_dexie = none ∧
    (migrateFromChromeStorage (envFlagFail 0)
        (migrateFromChromeStorage (envFlagFail 0)
          ⟨Db.empty, LocalStorage.empty, ⟨some "n", none, none⟩⟩).1).2 = ⟨1, 0⟩ ∧
    (migrateFromChromeStorage (Env.cleanExt 0)
        ((migrateFromChromeStorage (Env.cleanExt 0)
          ⟨Db.empty, LocalStorage.empty, ⟨some "n", none, none⟩⟩).1)).2 = ⟨0, 0⟩ :=
  migration_flag_write_failure 0
    ⟨Db.empty, LocalStorage.empty, ⟨some "n", none, none⟩⟩ rfl

end Squll
